import Mathlib

/-!
Shallow embedding of the minor-report lifecycle of this repository:
`src/helpers/minor_verification.py`, `src/views/minorreportview.py`,
`src/cmds/core/flag_minor.py` and `src/cmds/automation/scheduled_tasks.py`.

Machine times are modelled as integers (seconds since the Unix epoch, UTC);
the monotonic clock used by the reviewer cache is modelled as a rational.
External collaborators (the chat-platform gateway, the ban helpers, the HTTP
transport and the JSON-decoded response body) enter as explicit parameters.
-/

/-- Status constant `PENDING` from `src/helpers/minor_verification.py`. -/
def PENDING : String := "pending"

/-- Status constant `APPROVED` from `src/helpers/minor_verification.py`. -/
def APPROVED : String := "approved"

/-- Status constant `DENIED` from `src/helpers/minor_verification.py`. -/
def DENIED : String := "denied"

/-- Status constant `CONSENT_VERIFIED` from `src/helpers/minor_verification.py`. -/
def CONSENT_VERIFIED : String := "consent_verified"

/-- One row of the `MinorReport` table (`src/database/models/minor_report.py`).
Timestamps are seconds since the epoch, UTC. -/
structure MinorReport where
  id : Nat
  user_id : Nat
  reporter_id : Nat
  suspected_age : Int
  evidence : String
  report_message_id : Nat
  status : String
  reviewer_id : Option Nat
  created_at : Int
  updated_at : Int
  associated_ban_id : Option Nat
deriving DecidableEq, Repr

/-- One row of the `Ban` table, restricted to the two columns the minor-report
flow reads (`Ban.id`, `Ban.user_id`). -/
structure Ban where
  id : Nat
  user_id : Nat
deriving DecidableEq, Repr

/-- `years_until_18` from `src/helpers/minor_verification.py`: returns
`18 - suspected_age`, raising `ValueError` outside 1..17 (modelled as
`Except.error`). -/
def years_until_18 (suspected_age : Int) : Except String Int :=
  if suspected_age < 1 ∨ suspected_age > 17 then
    Except.error "suspected_age must be between 1 and 17"
  else
    Except.ok (18 - suspected_age)

/-- A JSON value, as produced by `json.loads` on the consent-check response
body. -/
inductive JVal where
  | jnull
  | jbool (b : Bool)
  | jnum (n : Int)
  | jstr (s : String)
  | jarr (elems : List JVal)
  | jobj (fields : List (String × JVal))

/-- Python truthiness of a decoded JSON value (`bool(x)`). -/
def pyTruthyJ : JVal → Bool
  | JVal.jnull => false
  | JVal.jbool b => b
  | JVal.jnum n => n != 0
  | JVal.jstr s => s != ""
  | JVal.jarr elems => !elems.isEmpty
  | JVal.jobj fields => !fields.isEmpty

/-- `dict.get(key)` on a decoded JSON object: first binding of the key, or
`None`. -/
def jget (fields : List (String × JVal)) (key : String) : Option JVal :=
  (fields.find? (fun p => p.1 == key)).map (fun p => p.2)

/-- `bool(dict.get(key))`: a missing key is `None`, which is falsy. -/
def jgetTruthy (fields : List (String × JVal)) (key : String) : Bool :=
  match jget fields key with
  | none => false
  | some v => pyTruthyJ v

/-- Python truthiness of an optional string setting:
`getattr(settings, NAME, None) or ""` followed by `if not value`. `none`
models a missing or `None` attribute. -/
def optStrTruthy : Option String → Bool
  | none => false
  | some s => s != ""

/-- Outcome of the outbound HTTP POST performed by `check_parental_consent`.
A 200-family response carries the decoded body: `none` when the body is not
parseable as JSON (`json.JSONDecodeError`), `some v` when it decodes to `v`.
`transportError` is `aiohttp.ClientError`; `timeout` is `asyncio.TimeoutError`
from the 10-second total timeout. -/
inductive HttpOutcome where
  | response (status : Nat) (body : Option JVal)
  | transportError
  | timeout

/-- `check_parental_consent` from `src/helpers/minor_verification.py`.
`url` and `secret` are the `PARENTAL_CONSENT_CHECK_URL` and
`PARENTAL_CONSENT_SECRET` settings; `outcome` is the HTTP transport result.
The HMAC-SHA1 signature is computed over the request body and does not affect
the return value, so it is not modelled. An uncaught Python exception is
modelled as `Except.error`: a 200 response whose body decodes to a non-object
reaches `data.get(...)` on a non-dict, which raises `AttributeError` (neither
of the two `except` clauses catches it). -/
def check_parental_consent (account_identifier : String)
    (url secret : Option String) (outcome : HttpOutcome) : Except String Bool :=
  if account_identifier == "" then Except.ok false
  else if !optStrTruthy url then Except.ok false
  else if !optStrTruthy secret then Except.ok false
  else
    match outcome with
    | HttpOutcome.transportError => Except.ok false
    | HttpOutcome.timeout => Except.ok false
    | HttpOutcome.response status body =>
      if status ≠ 200 then Except.ok false
      else
        match body with
        | none => Except.ok false
        | some (JVal.jobj fields) => Except.ok (jgetTruthy fields "exist")
        | some _ => Except.error "AttributeError"

/-- Helper: in range 1..17 the age calculator succeeds with `18 - age`. -/
theorem years_until_18_ok (a : Int) (h1 : 1 ≤ a) (h2 : a ≤ 17) :
    years_until_18 a = Except.ok (18 - a) := by
  unfold years_until_18
  rw [if_neg]
  push_neg
  exact ⟨h1, h2⟩

/-- C9: `years_until_18(age)` returns `18 − age` exactly for `1 ≤ age ≤ 17`
and fails with a validation error for every age outside that range; in
particular `years_until_18 15 = 3` and `years_until_18 1 = 17`. -/
theorem years_until_18_spec :
    (∀ a : Int, 1 ≤ a → a ≤ 17 → years_until_18 a = Except.ok (18 - a)) ∧
    (∀ a : Int, a < 1 ∨ a > 17 →
      years_until_18 a = Except.error "suspected_age must be between 1 and 17") ∧
    years_until_18 15 = Except.ok 3 ∧
    years_until_18 1 = Except.ok 17 ∧
    years_until_18 0 = Except.error "suspected_age must be between 1 and 17" ∧
    years_until_18 18 = Except.error "suspected_age must be between 1 and 17" ∧
    years_until_18 (-3) = Except.error "suspected_age must be between 1 and 17" := by
  refine ⟨fun a h1 h2 => years_until_18_ok a h1 h2, fun a h => ?_, ?_, ?_, ?_, ?_, ?_⟩
  · unfold years_until_18
    rw [if_pos h]
  all_goals rfl

/-- Witness for C9 at age 5 (in range) and age 20 (out of range). -/
theorem years_until_18_spec_witness :
    years_until_18 5 = Except.ok 13 ∧
    years_until_18 20 = Except.error "suspected_age must be between 1 and 17" := by
  refine ⟨years_until_18_spec.1 5 (by decide) (by decide), ?_⟩
  exact years_until_18_spec.2.1 20 (by decide)

/-- C2: `check_parental_consent` yields `false`, without an exception
reaching the caller, under each of: empty identifier, missing or empty URL,
missing or empty secret, non-200 response, non-JSON response body, transport
error, and timeout — each condition independently. -/
theorem check_parental_consent_fail_closed :
    (∀ url secret o, check_parental_consent "" url secret o = Except.ok false) ∧
    (∀ a secret o, check_parental_consent a none secret o = Except.ok false) ∧
    (∀ a secret o, check_parental_consent a (some "") secret o = Except.ok false) ∧
    (∀ a url o, check_parental_consent a url none o = Except.ok false) ∧
    (∀ a url o, check_parental_consent a url (some "") o = Except.ok false) ∧
    (∀ a url secret status body, status ≠ 200 →
      check_parental_consent a url secret (HttpOutcome.response status body) =
        Except.ok false) ∧
    (∀ a url secret status,
      check_parental_consent a url secret (HttpOutcome.response status none) =
        Except.ok false) ∧
    (∀ a url secret,
      check_parental_consent a url secret HttpOutcome.transportError = Except.ok false) ∧
    (∀ a url secret,
      check_parental_consent a url secret HttpOutcome.timeout = Except.ok false) := by
  refine ⟨fun url secret o => by simp [check_parental_consent],
          fun a secret o => ?_, fun a secret o => ?_, fun a url o => ?_,
          fun a url o => ?_, fun a url secret status body h => ?_,
          fun a url secret status => ?_, fun a url secret => ?_,
          fun a url secret => ?_⟩ <;>
    simp only [check_parental_consent, optStrTruthy] <;>
    split <;> simp_all <;> split <;> simp_all

/-- Witness for C2, discharging the non-200 case at status 500. -/
theorem check_parental_consent_fail_closed_witness :
    check_parental_consent "uuid-123" (some "https://consent.example/check")
      (some "secret") (HttpOutcome.response 500 none) = Except.ok false := by
  exact check_parental_consent_fail_closed.2.2.2.2.2.1 "uuid-123"
    (some "https://consent.example/check") (some "secret") 500 none (by decide)

/-- The module-level reviewer-id cache of `src/helpers/minor_verification.py`:
`_reviewer_ids_cache` and `_reviewer_ids_cache_ts`. The timestamp comes from
`time.monotonic()`, modelled as a rational. -/
structure ReviewerCache where
  cache : Option (List Nat)
  ts : Rat
deriving DecidableEq, Repr

/-- `REVIEWER_CACHE_TTL_SEC` from `src/helpers/minor_verification.py`. -/
def REVIEWER_CACHE_TTL_SEC : Rat := 60

/-- Result of one call to `get_minor_review_reviewer_ids`: the returned ids,
the cache state after the call, and whether the database was consulted. -/
structure ReviewerReadOut where
  ids : List Nat
  state : ReviewerCache
  consulted_db : Bool
deriving DecidableEq, Repr

/-- `get_minor_review_reviewer_ids` from `src/helpers/minor_verification.py`.
`store` is the current contents of the `MinorReviewReviewer.user_id` column;
`now` is `time.monotonic()`. Served from cache when the cached value is not
`None` and its age is under the TTL; otherwise the store is read and both the
cached value and its timestamp are refreshed. -/
def get_minor_review_reviewer_ids (st : ReviewerCache) (now : Rat)
    (store : List Nat) : ReviewerReadOut :=
  match st.cache with
  | some c =>
    if now - st.ts < REVIEWER_CACHE_TTL_SEC then ⟨c, st, false⟩
    else ⟨store, ⟨some store, now⟩, true⟩
  | none => ⟨store, ⟨some store, now⟩, true⟩

/-- `invalidate_reviewer_ids_cache` from `src/helpers/minor_verification.py`:
clears the cached value; the timestamp is left as is. -/
def invalidate_reviewer_ids_cache (st : ReviewerCache) : ReviewerCache :=
  ⟨none, st.ts⟩

/-- `is_minor_review_moderator` from `src/helpers/minor_verification.py`:
membership of `user_id` in the reviewer ids returned by the cached read. -/
def is_minor_review_moderator (st : ReviewerCache) (now : Rat)
    (store : List Nat) (user_id : Nat) : Bool :=
  (get_minor_review_reviewer_ids st now store).ids.contains user_id

/-- C8 counterexample: anchored at a prior cache-hit read, the 60-second
guarantee fails, because a hit never refreshes the cache timestamp. Fill the
cache at instant 0 with `[7]`; a hit read at instant 50 returns the cached
tuple and leaves the state unchanged; reviewer 9 is then added to the store.
Two reads at instants 55 and 65 — both within 60 seconds of the prior read at
50 — return `[7]` (still a hit against the instant-0 timestamp) and `[7, 9]`
(timestamp expired, store re-read), which differ. -/
theorem reviewer_cache_hit_anchor_differs :
    (get_minor_review_reviewer_ids ⟨some [7], 0⟩ 50 [7]).ids = [7] ∧
    (get_minor_review_reviewer_ids ⟨some [7], 0⟩ 50 [7]).state =
      ⟨some [7], 0⟩ ∧
    ((55 : Rat) - 50 < REVIEWER_CACHE_TTL_SEC ∧
      (65 : Rat) - 50 < REVIEWER_CACHE_TTL_SEC) ∧
    (get_minor_review_reviewer_ids
        (get_minor_review_reviewer_ids ⟨some [7], 0⟩ 50 [7]).state
        55 [7, 9]).ids = [7] ∧
    (get_minor_review_reviewer_ids
        (get_minor_review_reviewer_ids
          (get_minor_review_reviewer_ids ⟨some [7], 0⟩ 50 [7]).state
          55 [7, 9]).state
        65 [7, 9]).ids = [7, 9] ∧
    ([7] : List Nat) ≠ [7, 9] := by
  refine ⟨?_, ?_, ⟨?_, ?_⟩, ?_, ?_, ?_⟩ <;>
    norm_num [get_minor_review_reviewer_ids, REVIEWER_CACHE_TTL_SEC]

/-- C8 (amended): after a read at `t0` that consulted the store (the cache
was empty or expired, so it was refilled and its timestamp set to `t0`), any
two reads within 60 seconds of that read return the same ids as it did,
whatever the store holds at those instants; and a read performed right after
`invalidate_reviewer_ids_cache` returns the store's current contents, at any
time whatsoever. -/
theorem reviewer_cache_spec (st : ReviewerCache) (t0 t1 t2 t : Rat)
    (store0 store1 store2 s : List Nat) (st2 : ReviewerCache)
    (hmiss : st.cache = none ∨ REVIEWER_CACHE_TTL_SEC ≤ t0 - st.ts)
    (h01 : t0 ≤ t1) (h12 : t1 ≤ t2) (h2 : t2 - t0 < REVIEWER_CACHE_TTL_SEC) :
    (get_minor_review_reviewer_ids
        (get_minor_review_reviewer_ids st t0 store0).state t1 store1).ids =
      (get_minor_review_reviewer_ids st t0 store0).ids ∧
    (get_minor_review_reviewer_ids
        (get_minor_review_reviewer_ids
          (get_minor_review_reviewer_ids st t0 store0).state t1 store1).state
        t2 store2).ids =
      (get_minor_review_reviewer_ids st t0 store0).ids ∧
    (get_minor_review_reviewer_ids (invalidate_reviewer_ids_cache st2) t s).ids = s := by
  have hfill : get_minor_review_reviewer_ids st t0 store0 =
      ⟨store0, ⟨some store0, t0⟩, true⟩ := by
    rcases hmiss with h | h
    · simp [get_minor_review_reviewer_ids, h]
    · rcases hc : st.cache with _ | c
      · simp [get_minor_review_reviewer_ids, hc]
      · simp only [get_minor_review_reviewer_ids, hc]
        rw [if_neg (by linarith)]
  have h1lt : t1 - t0 < REVIEWER_CACHE_TTL_SEC := by linarith
  have hhit1 : get_minor_review_reviewer_ids
      (get_minor_review_reviewer_ids st t0 store0).state t1 store1 =
      ⟨store0, ⟨some store0, t0⟩, false⟩ := by
    rw [hfill]
    simp only [get_minor_review_reviewer_ids]
    rw [if_pos h1lt]
  have hhit2 : get_minor_review_reviewer_ids
      (⟨some store0, t0⟩ : ReviewerCache) t2 store2 =
      ⟨store0, ⟨some store0, t0⟩, false⟩ := by
    simp only [get_minor_review_reviewer_ids]
    rw [if_pos h2]
  refine ⟨by rw [hhit1, hfill], ?_, ?_⟩
  · rw [hhit1]
    simp only [hfill]
    exact congrArg ReviewerReadOut.ids hhit2
  · simp [get_minor_review_reviewer_ids, invalidate_reviewer_ids_cache]

/-- Witness for C8: fill at 0 from store `[7]`, reads at 30 and 59 while the
store has changed to `[7, 9]`, and an invalidated read at 10. -/
theorem reviewer_cache_spec_witness :
    (get_minor_review_reviewer_ids
        (get_minor_review_reviewer_ids ⟨none, 0⟩ 0 [7]).state 30 [7, 9]).ids = [7] ∧
    (get_minor_review_reviewer_ids
        (get_minor_review_reviewer_ids
          (get_minor_review_reviewer_ids ⟨none, 0⟩ 0 [7]).state 30 [7, 9]).state
        59 [7, 9]).ids = [7] ∧
    (get_minor_review_reviewer_ids
        (invalidate_reviewer_ids_cache ⟨some [7], 0⟩) 10 [7, 9]).ids = [7, 9] := by
  have h := reviewer_cache_spec ⟨none, 0⟩ 0 30 59 10 [7] [7, 9] [7, 9] [7, 9]
    ⟨some [7], 0⟩ (Or.inl rfl) (by norm_num) (by norm_num)
    (by norm_num [REVIEWER_CACHE_TTL_SEC])
  exact ⟨h.1, h.2.1, h.2.2⟩

/-- C10: a read that finds zero reviewers caches the empty tuple; a later read
within 60 seconds serves that empty tuple without consulting the store even if
a reviewer has since been added, while a read after an explicit invalidation
consults the store and sees the new reviewer. -/
theorem reviewer_cache_serves_empty (st : ReviewerCache) (t0 t1 : Rat)
    (store1 : List Nat)
    (hmiss : st.cache = none ∨ REVIEWER_CACHE_TTL_SEC ≤ t0 - st.ts)
    (h1 : t1 - t0 < REVIEWER_CACHE_TTL_SEC) :
    (get_minor_review_reviewer_ids st t0 []).ids = [] ∧
    (get_minor_review_reviewer_ids
        (get_minor_review_reviewer_ids st t0 []).state t1 store1).ids = [] ∧
    (get_minor_review_reviewer_ids
        (get_minor_review_reviewer_ids st t0 []).state t1 store1).consulted_db =
      false ∧
    (get_minor_review_reviewer_ids
        (invalidate_reviewer_ids_cache
          (get_minor_review_reviewer_ids st t0 []).state) t1 store1).ids = store1 ∧
    (get_minor_review_reviewer_ids
        (invalidate_reviewer_ids_cache
          (get_minor_review_reviewer_ids st t0 []).state) t1 store1).consulted_db =
      true := by
  have hfill : get_minor_review_reviewer_ids st t0 [] =
      ⟨[], ⟨some [], t0⟩, true⟩ := by
    rcases hmiss with h | h
    · simp [get_minor_review_reviewer_ids, h]
    · rcases hc : st.cache with _ | c
      · simp [get_minor_review_reviewer_ids, hc]
      · simp only [get_minor_review_reviewer_ids, hc]
        rw [if_neg (by linarith)]
  rw [hfill]
  simp [get_minor_review_reviewer_ids, invalidate_reviewer_ids_cache, h1]

/-- Witness for C10: empty read at 0, reviewer 5 added, cached empty read at
59, invalidated read at 59 seeing `[5]`. -/
theorem reviewer_cache_serves_empty_witness :
    (get_minor_review_reviewer_ids ⟨none, 0⟩ 0 []).ids = [] ∧
    (get_minor_review_reviewer_ids
        (get_minor_review_reviewer_ids ⟨none, 0⟩ 0 []).state 59 [5]).ids = [] ∧
    (get_minor_review_reviewer_ids
        (invalidate_reviewer_ids_cache
          (get_minor_review_reviewer_ids ⟨none, 0⟩ 0 []).state) 59 [5]).ids = [5] := by
  have h := reviewer_cache_serves_empty ⟨none, 0⟩ 0 59 [5] (Or.inl rfl)
    (by norm_num [REVIEWER_CACHE_TTL_SEC])
  exact ⟨h.1, h.2.1, h.2.2.2.1⟩

/-- A platform mutation issued to the chat-platform collaborator. -/
inductive Effect where
  | assignRole (user_id : Nat)
  | unban (user_id : Nat)
  | banOrder (user_id : Nat)
deriving DecidableEq, Repr

/-- Environment of one `MinorReportView._recheck_callback` run: the results
the external collaborators hand back. `account_id` is
`get_account_identifier_for_discord`; `has_consent` is
`check_parental_consent`; `guild_ok` is `interaction.guild` being non-`None`;
`member_present` is `bot.get_member_or_user` returning the target;
`active_ban` is what `get_ban` would report for the target; the last three
flags drive `assign_minor_role` (role configured on the guild, target already
holding it, `add_roles` succeeding rather than raising
`Forbidden`/`HTTPException`). -/
structure RecheckEnv where
  account_id : Option String
  has_consent : Bool
  guild_ok : Bool
  member_present : Bool
  active_ban : Option Ban
  role_exists : Bool
  member_has_role : Bool
  add_roles_ok : Bool
deriving DecidableEq, Repr

/-- `assign_minor_role` from `src/helpers/minor_verification.py`: `True` iff
the role is configured, the member lacks it, and `add_roles` succeeds. -/
def assign_minor_role (role_exists member_has_role add_roles_ok : Bool) : Bool :=
  if !role_exists then false
  else if member_has_role then false
  else add_roles_ok

/-- `update_report_status` from `src/views/minorreportview.py`: sets `status`,
`reviewer_id` and `updated_at` on the row with the given id;
`associated_ban_id` is overwritten only when one is supplied. -/
def update_report_status (store : List MinorReport) (report_id : Nat)
    (status : String) (reviewer_id : Nat) (now : Int)
    (associated_ban_id : Option Nat) : List MinorReport :=
  store.map fun r =>
    if r.id = report_id then
      { r with
        status := status
        reviewer_id := some reviewer_id
        updated_at := now
        associated_ban_id :=
          match associated_ban_id with
          | some b => some b
          | none => r.associated_ban_id }
    else r

/-- The write both recheck branches perform at the end of
`_recheck_callback`: re-fetch the row by id and store the in-memory report's
`status`, `reviewer_id` and `updated_at`. -/
def recheck_final_write (store : List MinorReport) (report_id : Nat)
    (status : String) (reviewer_id : Nat) (now : Int) : List MinorReport :=
  store.map fun r =>
    if r.id = report_id then
      { r with status := status, reviewer_id := some reviewer_id, updated_at := now }
    else r

/-- Python truthiness of `report.associated_ban_id` (`None` and `0` falsy). -/
def optNatTruthy : Option Nat → Bool
  | none => false
  | some n => n != 0

/-- Result of one interactive callback: the report store after the run, the
platform mutations issued, and the (first) user-facing reply. -/
structure HandlerResult where
  reports : List MinorReport
  effects : List Effect
  message : Option String
deriving DecidableEq, Repr

/-- `MinorReportView._recheck_callback` from `src/views/minorreportview.py`.
`report` is the row the button callback re-resolved from the card's message
id; `reviewer` is `interaction.user.id`; `now` stands for the
`datetime.now(timezone.utc)` instants of the run. With consent: assign the
minor role if the target resolved, unban only when the target's active ban id
equals a truthy `associated_ban_id`, then `update_report_status` to
`consent_verified`. Without consent: only the final audit write runs, which
keeps `status` at the in-memory value but stores `reviewer_id` and
`updated_at`. -/
def recheck_callback (reports : List MinorReport) (report : MinorReport)
    (env : RecheckEnv) (reviewer : Nat) (now : Int) : HandlerResult :=
  match env.account_id with
  | none => ⟨reports, [], some "Could not find linked account for this user."⟩
  | some _ =>
    if !env.guild_ok then ⟨reports, [], some "Guild not found."⟩
    else
      let existing_ban := if env.member_present then env.active_ban else none
      if env.has_consent then
        let role_effects :=
          if env.member_present &&
              assign_minor_role env.role_exists env.member_has_role env.add_roles_ok
          then [Effect.assignRole report.user_id] else []
        let do_unban :=
          match existing_ban, report.associated_ban_id with
          | some b, some v => optNatTruthy (some v) && (b.id == v)
          | _, _ => false
        let unban_effects :=
          if do_unban && env.member_present then [Effect.unban report.user_id] else []
        let msg :=
          if do_unban then "Consent found. User unbanned and role assigned."
          else
            "Consent found. Role assigned."
              ++ (if existing_ban.isNone then " User was not banned by this report."
                  else "")
        let reports1 :=
          update_report_status reports report.id CONSENT_VERIFIED reviewer now none
        let reports2 :=
          recheck_final_write reports1 report.id CONSENT_VERIFIED reviewer now
        ⟨reports2, role_effects ++ unban_effects, some msg⟩
      else
        ⟨recheck_final_write reports report.id report.status reviewer now, [],
         some "Consent still not found. No changes made."⟩

/-- Helper: after the final recheck write, every row carrying the written id
has the written status. Both per-row updates preserve `id`. -/
theorem recheck_final_write_status (store : List MinorReport) (rid : Nat)
    (status : String) (reviewer : Nat) (now : Int) :
    ∀ r ∈ recheck_final_write store rid status reviewer now,
      r.id = rid → r.status = status := by
  intro r hr hid
  unfold recheck_final_write at hr
  rcases List.mem_map.mp hr with ⟨r0, _, rfl⟩
  by_cases h : r0.id = rid
  · simp [h]
  · simp only [if_neg h] at hid ⊢
    exact absurd hid h

/-- A concrete approved report used to exercise the recheck paths. -/
def sampleRecheckReport : MinorReport :=
  ⟨1, 10, 2, 15, "evidence", 100, APPROVED, none, 0, 0, none⟩

/-- A concrete recheck environment in which the consent check returns
`false`. -/
def sampleNoConsentEnv : RecheckEnv :=
  ⟨some "uuid-1", false, true, false, none, false, false, false⟩

/-- C1 counterexample: a recheck whose consent check returns `false` does
mutate the stored report — `status` keeps its prior value, but `reviewer_id`
and `updated_at` are written and committed, so the record does not stay
unchanged. -/
theorem recheck_no_consent_mutates_record :
    (recheck_callback [sampleRecheckReport] sampleRecheckReport
        sampleNoConsentEnv 42 500).reports =
      [{ sampleRecheckReport with reviewer_id := some 42, updated_at := 500 }] ∧
    ({ sampleRecheckReport with reviewer_id := some 42, updated_at := 500 } :
        MinorReport).status = sampleRecheckReport.status ∧
    ({ sampleRecheckReport with reviewer_id := some 42, updated_at := 500 } :
        MinorReport).reviewer_id ≠ sampleRecheckReport.reviewer_id ∧
    ({ sampleRecheckReport with reviewer_id := some 42, updated_at := 500 } :
        MinorReport).updated_at ≠ sampleRecheckReport.updated_at ∧
    (recheck_callback [sampleRecheckReport] sampleRecheckReport
        sampleNoConsentEnv 42 500).reports ≠ [sampleRecheckReport] := by
  refine ⟨?_, ?_, ?_, ?_, ?_⟩ <;> decide

/-- C1 (amended): a recheck by an authorized reviewer whose consent check
returns `false` leaves the report's `status` at its prior value and issues no
platform mutation, but it does write the stored report: `reviewer_id` becomes
the rechecking reviewer and `updated_at` the recheck instant, every other
field and every other row staying unchanged; the reviewer is told no changes
were made and the card keeps an audit note. -/
theorem recheck_no_consent_audit_update (reports : List MinorReport)
    (report : MinorReport) (acct : String) (member_present : Bool)
    (active_ban : Option Ban) (role_exists member_has_role add_roles_ok : Bool)
    (reviewer : Nat) (now : Int) :
    recheck_callback reports report
        ⟨some acct, false, true, member_present, active_ban, role_exists,
         member_has_role, add_roles_ok⟩ reviewer now =
      ⟨reports.map (fun r =>
          if r.id = report.id then
            { r with
              status := report.status
              reviewer_id := some reviewer
              updated_at := now }
          else r),
       [], some "Consent still not found. No changes made."⟩ := rfl

/-- C6: in a recheck whose consent check returns `true` (account resolved,
guild found): the minor role is granted whenever the target resolved to a
member (and the role is configured, not already held, and the grant call
succeeds); an unban is issued exactly when the active ban the ban helper
reports for the resolved target has the id stored in `associated_ban_id`; and
every stored row of the report ends at status `consent_verified` either
way. -/
theorem recheck_with_consent (reports : List MinorReport) (report : MinorReport)
    (acct : String) (member_present : Bool) (active_ban : Option Ban)
    (role_exists member_has_role add_roles_ok : Bool) (reviewer : Nat) (now : Int)
    (hassoc : report.associated_ban_id ≠ some 0) :
    (member_present = true → role_exists = true → member_has_role = false →
      add_roles_ok = true →
      Effect.assignRole report.user_id ∈
        (recheck_callback reports report
          ⟨some acct, true, true, member_present, active_ban, role_exists,
           member_has_role, add_roles_ok⟩ reviewer now).effects) ∧
    (Effect.unban report.user_id ∈
        (recheck_callback reports report
          ⟨some acct, true, true, member_present, active_ban, role_exists,
           member_has_role, add_roles_ok⟩ reviewer now).effects ↔
      ∃ b, (if member_present then active_ban else none) = some b ∧
        report.associated_ban_id = some b.id) ∧
    (∀ r ∈ (recheck_callback reports report
          ⟨some acct, true, true, member_present, active_ban, role_exists,
           member_has_role, add_roles_ok⟩ reviewer now).reports,
      r.id = report.id → r.status = CONSENT_VERIFIED) := by
  refine ⟨?_, ?_, ?_⟩
  · intro hmp hre hmh hao
    subst hmp hre hmh hao
    simp [recheck_callback, assign_minor_role]
  · cases hmp : member_present <;>
      cases hab : active_ban <;>
      rcases hform : report.associated_ban_id with _ | v <;>
      simp_all [recheck_callback, optNatTruthy]
    exact eq_comm
  · intro r hr hid
    have : (recheck_callback reports report
        ⟨some acct, true, true, member_present, active_ban, role_exists,
         member_has_role, add_roles_ok⟩ reviewer now).reports =
        recheck_final_write
          (update_report_status reports report.id CONSENT_VERIFIED reviewer now none)
          report.id CONSENT_VERIFIED reviewer now := rfl
    rw [this] at hr
    exact recheck_final_write_status _ _ _ _ _ r hr hid

/-- A concrete approved report whose approval created ban 7. -/
def sampleConsentReport : MinorReport :=
  ⟨1, 10, 2, 15, "evidence", 100, APPROVED, none, 0, 0, some 7⟩

/-- A concrete recheck environment: consent now on file, target still
resolvable, ban 7 still active on the target, role grant able to succeed. -/
def sampleConsentEnv : RecheckEnv :=
  ⟨some "uuid-1", true, true, true, some ⟨7, 10⟩, true, false, true⟩

/-- Witness for C6: with consent, a resolvable target and active ban 7
matching `associated_ban_id = 7`, the role is granted, the unban is issued,
and the stored row reaches `consent_verified`. -/
theorem recheck_with_consent_witness :
    Effect.assignRole 10 ∈
      (recheck_callback [sampleConsentReport] sampleConsentReport
        sampleConsentEnv 42 500).effects ∧
    Effect.unban 10 ∈
      (recheck_callback [sampleConsentReport] sampleConsentReport
        sampleConsentEnv 42 500).effects ∧
    ({ sampleConsentReport with
        status := CONSENT_VERIFIED
        reviewer_id := some 42
        updated_at := 500 } : MinorReport).status = CONSENT_VERIFIED := by
  have h := recheck_with_consent [sampleConsentReport] sampleConsentReport
    "uuid-1" true (some ⟨7, 10⟩) true false true 42 500 (by decide)
  refine ⟨h.1 rfl rfl rfl rfl, ?_, ?_⟩
  · exact h.2.1.mpr ⟨⟨7, 10⟩, by decide, by decide⟩
  · exact h.2.2 _ (by decide) (by decide)

/-- `get_report_by_message_id` from `src/views/minorreportview.py`: first row
whose `report_message_id` matches. -/
def get_report_by_message_id (store : List MinorReport) (message_id : Nat) :
    Option MinorReport :=
  (store.filter (fun r => r.report_message_id == message_id)).head?

/-- The three persistent card actions of `MinorReportView`. -/
inductive ButtonAction where
  | approve
  | deny
  | recheck
deriving DecidableEq, Repr

/-- One click on a report-card button, as dispatched by the view:
`MinorReportView.interaction_check` runs first (report re-resolved from the
card's message id, then `is_minor_review_moderator`); only when it passes does
the button callback run. `reviewer_ids` is the tuple
`get_minor_review_reviewer_ids` returned. Approve and deny on a `pending`
report open a modal, which mutates nothing at click time; recheck runs
`_recheck_callback`. -/
def handle_button (reports : List MinorReport) (message_id : Nat)
    (reviewer_ids : List Nat) (user : Nat) (action : ButtonAction)
    (env : RecheckEnv) (now : Int) : HandlerResult :=
  match get_report_by_message_id reports message_id with
  | none => ⟨reports, [], some "Report not found or already resolved."⟩
  | some report =>
    if user ∈ reviewer_ids then
      match action with
      | ButtonAction.approve =>
        if report.status = PENDING then ⟨reports, [], none⟩
        else ⟨reports, [], some "This report is no longer pending."⟩
      | ButtonAction.deny =>
        if report.status = PENDING then ⟨reports, [], none⟩
        else ⟨reports, [], some "This report is no longer pending."⟩
      | ButtonAction.recheck => recheck_callback reports report env user now
    else ⟨reports, [], some "You are not authorized to review minor reports."⟩

/-- C3: any of the three card actions clicked by a user absent from the
reviewer registry leaves the report store untouched (hence `status`,
`reviewer_id` and `updated_at` of every report unchanged), issues no platform
mutation, and answers with the fixed rejection message. -/
theorem reviewer_gate (reports : List MinorReport) (message_id : Nat)
    (reviewer_ids : List Nat) (user : Nat) (action : ButtonAction)
    (env : RecheckEnv) (now : Int)
    (hrep : (get_report_by_message_id reports message_id).isSome)
    (hnot : user ∉ reviewer_ids) :
    handle_button reports message_id reviewer_ids user action env now =
      ⟨reports, [], some "You are not authorized to review minor reports."⟩ := by
  unfold handle_button
  rcases hr : get_report_by_message_id reports message_id with _ | report
  · rw [hr] at hrep
    exact absurd hrep (by simp)
  · simp [hnot]

/-- Witness for C3: user 99 is not in the reviewer list `[42]`, so clicking
recheck on the card of the stored report changes nothing. -/
theorem reviewer_gate_witness :
    handle_button [sampleRecheckReport] 100 [42] 99 ButtonAction.recheck
        sampleNoConsentEnv 500 =
      ⟨[sampleRecheckReport], [],
       some "You are not authorized to review minor reports."⟩ := by
  exact reviewer_gate [sampleRecheckReport] 100 [42] 99 ButtonAction.recheck
    sampleNoConsentEnv 500 (by decide) (by decide)

/-- Accumulator step of the `ORDER BY id DESC LIMIT 1` lookup: keep the ban
with the larger id. -/
def pickLaterBan (best : Option Ban) (b : Ban) : Option Ban :=
  match best with
  | none => some b
  | some a => if a.id < b.id then some b else some a

/-- The `select(Ban).filter(Ban.user_id == uid).order_by(Ban.id.desc()).limit(1)`
lookup in `ApproveBanModal.callback`: the stored ban of that user with the
greatest id, if any. -/
def latest_ban_for (bans : List Ban) (uid : Nat) : Option Ban :=
  (bans.filter (fun b => b.user_id == uid)).foldl pickLaterBan none

/-- Helper: the fold only ever returns a list element or the accumulator. -/
theorem foldl_pickLaterBan_mem (l : List Ban) (acc : Option Ban) (a : Ban)
    (h : l.foldl pickLaterBan acc = some a) : a ∈ l ∨ acc = some a := by
  induction l generalizing acc with
  | nil => exact Or.inr h
  | cons x xs ih =>
    rcases ih (pickLaterBan acc x) h with hx | hacc
    · exact Or.inl (List.mem_cons_of_mem x hx)
    · rcases acc with _ | c
      · simp only [pickLaterBan, Option.some_inj] at hacc
        exact Or.inl (hacc ▸ List.mem_cons_self x xs)
      · simp only [pickLaterBan] at hacc
        by_cases hlt : c.id < x.id
        · rw [if_pos hlt, Option.some_inj] at hacc
          exact Or.inl (hacc ▸ List.mem_cons_self x xs)
        · rw [if_neg hlt] at hacc
          exact Or.inr hacc

/-- Helper: appending a ban with a strictly larger id than every stored ban
makes it the `ORDER BY id DESC LIMIT 1` result for its user. -/
theorem latest_ban_for_append_fresh (bans : List Ban) (fresh : Ban)
    (h : ∀ b ∈ bans, b.id < fresh.id) :
    latest_ban_for (bans ++ [fresh]) fresh.user_id = some fresh := by
  unfold latest_ban_for
  rw [List.filter_append]
  have hf : List.filter (fun b => b.user_id == fresh.user_id) [fresh] = [fresh] := by
    simp
  rw [hf, List.foldl_append]
  rcases hacc : (bans.filter (fun b => b.user_id == fresh.user_id)).foldl
      pickLaterBan none with _ | a
  · rw [hacc]
    rfl
  · rw [hacc]
    have ha : a ∈ bans := by
      rcases foldl_pickLaterBan_mem _ _ _ hacc with hm | hc
      · exact List.mem_of_mem_filter hm
      · exact absurd hc (by simp)
    simp only [List.foldl_cons, List.foldl_nil, pickLaterBan]
    rw [if_pos (h a ha)]

/-- Result of one `ApproveBanModal.callback` run. -/
structure ApproveResult where
  reports : List MinorReport
  bans : List Ban
  effects : List Effect
  message : Option String
deriving DecidableEq, Repr

/-- `ApproveBanModal.callback` from `src/views/minorreportview.py`.
`dur`/`dur_exc` are what the external `validate_duration` returned for the
entered duration; `guild_ok` and `member_found` are the guild and
`bot.get_member_or_user` lookups. On the confirmed path the external
`ban_member_with_epoch` stores a new ban row — its id `fresh_ban_id` is the
autoincremented primary key, strictly above every stored id — then the newest
ban of the target is looked up and written into the report through
`update_report_status` together with status `approved` and the acting
reviewer. The confirmation text comes from the ban helper's response, so it is
not modelled. -/
def approve_callback (reports : List MinorReport) (bans : List Ban)
    (report : MinorReport) (dur : Int) (dur_exc : Option String)
    (guild_ok member_found : Bool) (reviewer : Nat) (fresh_ban_id : Nat)
    (now : Int) : ApproveResult :=
  if optStrTruthy dur_exc || dur ≤ 0 then
    ⟨reports, bans, [],
     some (match dur_exc with
           | some e => if e != "" then e else "Invalid duration."
           | none => "Invalid duration.")⟩
  else if !guild_ok then ⟨reports, bans, [], some "Guild not found."⟩
  else if !member_found then ⟨reports, bans, [], some "User not found in guild."⟩
  else
    let bans2 := bans ++ [⟨fresh_ban_id, report.user_id⟩]
    let ban_id := (latest_ban_for bans2 report.user_id).map Ban.id
    ⟨update_report_status reports report.id APPROVED reviewer now ban_id,
     bans2, [Effect.banOrder report.user_id], none⟩

/-- Helper: after `update_report_status` with an explicit ban id, every row
carrying the written report id holds the written fields. -/
theorem update_report_status_fields (store : List MinorReport) (rid : Nat)
    (status : String) (reviewer : Nat) (now : Int) (bid : Nat) :
    ∀ r ∈ update_report_status store rid status reviewer now (some bid),
      r.id = rid → r.status = status ∧ r.reviewer_id = some reviewer ∧
        r.updated_at = now ∧ r.associated_ban_id = some bid := by
  intro r hr hid
  unfold update_report_status at hr
  rcases List.mem_map.mp hr with ⟨r0, _, rfl⟩
  by_cases h : r0.id = rid
  · simp [h]
  · simp only [if_neg h] at hid ⊢
    exact absurd hid h

/-- C5: confirming the approval of a `pending` report stores the ban order's
new ban row, records exactly that ban's id in `associated_ban_id`, sets
`status = approved` and `reviewer_id` to the approving reviewer, and advances
`updated_at` to the transition instant. -/
theorem approve_pending_report (reports : List MinorReport) (bans : List Ban)
    (report : MinorReport) (dur : Int) (reviewer : Nat) (fresh_ban_id : Nat)
    (now : Int)
    (hdur : 0 < dur) (hstatus : report.status = PENDING)
    (hmem : report ∈ reports)
    (hfresh : ∀ b ∈ bans, b.id < fresh_ban_id)
    (hupd : report.updated_at < now) :
    (approve_callback reports bans report dur none true true reviewer
        fresh_ban_id now).bans = bans ++ [⟨fresh_ban_id, report.user_id⟩] ∧
    Effect.banOrder report.user_id ∈
      (approve_callback reports bans report dur none true true reviewer
        fresh_ban_id now).effects ∧
    ({ report with
        status := APPROVED
        reviewer_id := some reviewer
        updated_at := now
        associated_ban_id := some fresh_ban_id } : MinorReport) ∈
      (approve_callback reports bans report dur none true true reviewer
        fresh_ban_id now).reports ∧
    (∀ r ∈ (approve_callback reports bans report dur none true true reviewer
        fresh_ban_id now).reports,
      r.id = report.id → r.status = APPROVED ∧ r.reviewer_id = some reviewer ∧
        r.updated_at = now ∧ r.associated_ban_id = some fresh_ban_id ∧
        report.updated_at < r.updated_at) := by
  have hnotfail : ¬(optStrTruthy none || decide (dur ≤ 0)) = true := by
    simp [optStrTruthy]
    omega
  have hlatest : latest_ban_for (bans ++ [⟨fresh_ban_id, report.user_id⟩])
      report.user_id = some ⟨fresh_ban_id, report.user_id⟩ :=
    latest_ban_for_append_fresh bans ⟨fresh_ban_id, report.user_id⟩ hfresh
  have hout : approve_callback reports bans report dur none true true reviewer
      fresh_ban_id now =
      ⟨update_report_status reports report.id APPROVED reviewer now
          (some fresh_ban_id),
       bans ++ [⟨fresh_ban_id, report.user_id⟩],
       [Effect.banOrder report.user_id], none⟩ := by
    unfold approve_callback
    rw [if_neg hnotfail]
    simp only [Bool.not_true, Bool.false_eq_true, if_false, hlatest]
    rfl
  rw [hout]
  refine ⟨rfl, List.mem_singleton_self _, ?_, ?_⟩
  · unfold update_report_status
    refine List.mem_map.mpr ⟨report, hmem, ?_⟩
    rw [if_pos rfl]
  · intro r hr hid
    have h := update_report_status_fields reports report.id APPROVED reviewer
      now fresh_ban_id r hr hid
    exact ⟨h.1, h.2.1, h.2.2.1, h.2.2.2, by rw [h.2.2.1]; exact hupd⟩

/-- A concrete pending report awaiting review. -/
def samplePendingReport : MinorReport :=
  ⟨2, 20, 3, 16, "evidence", 200, PENDING, none, 0, 100, none⟩

/-- Witness for C5: approving the pending report over a ban table holding ban
3 creates ban 9 for user 20 and stores its id on the report. -/
theorem approve_pending_report_witness :
    (approve_callback [samplePendingReport] [⟨3, 77⟩] samplePendingReport 1000
        none true true 42 9 600).bans = [⟨3, 77⟩] ++ [⟨9, 20⟩] ∧
    ({ samplePendingReport with
        status := APPROVED
        reviewer_id := some 42
        updated_at := 600
        associated_ban_id := some 9 } : MinorReport) ∈
      (approve_callback [samplePendingReport] [⟨3, 77⟩] samplePendingReport 1000
        none true true 42 9 600).reports := by
  have h := approve_pending_report [samplePendingReport] [⟨3, 77⟩]
    samplePendingReport 1000 42 9 600 (by decide) (by decide)
    (List.mem_singleton_self _) (by decide) (by decide)
  exact ⟨h.1, h.2.2.1⟩

/-- `get_active_minor_report` from `src/helpers/minor_verification.py`: the
first stored `pending` report of the user, if any. -/
def get_active_minor_report (store : List MinorReport) (uid : Nat) :
    Option MinorReport :=
  (store.filter (fun r => r.user_id == uid && r.status == PENDING)).head?

/-- Number of `pending` reports a user has in the store (used to state the
one-active-report invariant). -/
def pendingCountFor (store : List MinorReport) (uid : Nat) : Nat :=
  (store.filter (fun r => r.user_id == uid && r.status == PENDING)).length

/-- The one-active-report invariant: at most one `pending` row per user. -/
def atMostOnePendingPerUser (store : List MinorReport) : Prop :=
  ∀ uid, pendingCountFor store uid ≤ 1

/-- Result of one `/flag_minor` invocation. -/
structure FlagResult where
  reports : List MinorReport
  posted_new_card : Bool
  edited_existing_card : Bool
deriving DecidableEq, Repr

/-- `FlagMinorCog.flag_minor` from `src/cmds/core/flag_minor.py`. The guard
chain is kept in source order; guards that only differ in their reply text are
collapsed into one boolean each: `guild_ok` (`ctx.guild`), `roles_ok`
(`VERIFIED_MINOR` configured and both role objects found), `target_ok`
(target resolved, a member, verified, and not already holding the minor
role), `account_found` (`get_account_identifier_for_discord`), `has_consent`
(`check_parental_consent`), `channel_ok` (review channel configured and
found). On consent already on file no report is created. Otherwise an
existing active report is updated in place and its card edited; else a new
`pending` row is appended and a new card posted. -/
def flag_minor (guild_ok : Bool) (suspected_age : Int)
    (roles_ok target_ok account_found has_consent channel_ok : Bool)
    (store : List MinorReport) (uid reporter : Nat) (evidence : String)
    (now : Int) (new_msg_id new_id : Nat) : FlagResult :=
  if !guild_ok then ⟨store, false, false⟩
  else if suspected_age < 1 ∨ suspected_age > 17 then ⟨store, false, false⟩
  else if !roles_ok then ⟨store, false, false⟩
  else if !target_ok then ⟨store, false, false⟩
  else if !account_found then ⟨store, false, false⟩
  else if has_consent then ⟨store, false, false⟩
  else if !channel_ok then ⟨store, false, false⟩
  else
    match get_active_minor_report store uid with
    | some existing =>
      ⟨store.map fun r =>
          if r.id = existing.id then
            { r with
              suspected_age := suspected_age
              evidence := evidence
              reporter_id := reporter
              updated_at := now }
          else r,
       false, true⟩
    | none =>
      ⟨store ++ [⟨new_id, uid, reporter, suspected_age, evidence, new_msg_id,
                 PENDING, none, now, now, none⟩],
       true, false⟩

/-- Helper: the head of a list, when present, is a member. -/
theorem head?_some_mem {α : Type} {l : List α} {a : α} (h : l.head? = some a) :
    a ∈ l := by
  cases l with
  | nil => simp at h
  | cons x xs =>
    simp only [List.head?_cons, Option.some_inj] at h
    exact h ▸ List.mem_cons_self x xs

/-- Helper: an active report returned for a user is a stored row. -/
theorem get_active_minor_report_mem (store : List MinorReport) (uid : Nat)
    (ex : MinorReport) (h : get_active_minor_report store uid = some ex) :
    ex ∈ store :=
  List.mem_of_mem_filter (head?_some_mem h)

/-- Helper: a per-row rewrite that keeps `user_id` and `status` keeps every
user's pending count. -/
theorem pendingCountFor_map (store : List MinorReport)
    (f : MinorReport → MinorReport)
    (hf : ∀ r, (f r).user_id = r.user_id ∧ (f r).status = r.status) (uid : Nat) :
    pendingCountFor (store.map f) uid = pendingCountFor store uid := by
  unfold pendingCountFor
  induction store with
  | nil => rfl
  | cons x xs ih =>
    simp only [List.map_cons, List.filter_cons]
    have hp : ((f x).user_id == uid && (f x).status == PENDING) =
        (x.user_id == uid && x.status == PENDING) := by
      rw [(hf x).1, (hf x).2]
    rw [hp]
    by_cases hc : (x.user_id == uid && x.status == PENDING) = true
    · rw [if_pos hc, if_pos hc]
      simpa using ih
    · rw [if_neg hc, if_neg hc]
      exact ih

/-- Helper: no active report for a user means a pending count of zero. -/
theorem pendingCountFor_eq_zero (store : List MinorReport) (uid : Nat)
    (h : get_active_minor_report store uid = none) :
    pendingCountFor store uid = 0 := by
  unfold get_active_minor_report at h
  unfold pendingCountFor
  cases hf : store.filter (fun r => r.user_id == uid && r.status == PENDING) with
  | nil => rfl
  | cons x xs =>
    rw [hf] at h
    simp at h

/-- C4: flagging a user who already has an active `pending` report rewrites
that row in place — same row count, `suspected_age`/`evidence`/`reporter_id`/
`updated_at` refreshed, `status`/`user_id`/`created_at` kept — and edits the
existing card rather than posting a new one; and whatever the guard outcomes,
a flag never takes a user from at most one `pending` report to more than
one. -/
theorem flag_minor_one_pending_per_user (guild_ok : Bool) (suspected_age : Int)
    (roles_ok target_ok account_found has_consent channel_ok : Bool)
    (store : List MinorReport) (uid reporter : Nat) (evidence : String)
    (now : Int) (new_msg_id new_id : Nat) (ex : MinorReport) :
    (get_active_minor_report store uid = some ex → 1 ≤ suspected_age →
      suspected_age ≤ 17 →
      flag_minor true suspected_age true true true false true store uid reporter
          evidence now new_msg_id new_id =
        ⟨store.map (fun r =>
            if r.id = ex.id then
              { r with
                suspected_age := suspected_age
                evidence := evidence
                reporter_id := reporter
                updated_at := now }
            else r),
         false, true⟩ ∧
      (flag_minor true suspected_age true true true false true store uid
          reporter evidence now new_msg_id new_id).reports.length =
        store.length ∧
      ({ ex with
          suspected_age := suspected_age
          evidence := evidence
          reporter_id := reporter
          updated_at := now } : MinorReport) ∈
        (flag_minor true suspected_age true true true false true store uid
          reporter evidence now new_msg_id new_id).reports) ∧
    (atMostOnePendingPerUser store →
      atMostOnePendingPerUser
        (flag_minor guild_ok suspected_age roles_ok target_ok account_found
          has_consent channel_ok store uid reporter evidence now new_msg_id
          new_id).reports) := by
  constructor
  · intro hex hage1 hage2
    have hval : ¬(suspected_age < 1 ∨ suspected_age > 17) := by
      push_neg
      exact ⟨hage1, hage2⟩
    have hform : flag_minor true suspected_age true true true false true store
        uid reporter evidence now new_msg_id new_id =
        ⟨store.map (fun r =>
            if r.id = ex.id then
              { r with
                suspected_age := suspected_age
                evidence := evidence
                reporter_id := reporter
                updated_at := now }
            else r),
         false, true⟩ := by
      unfold flag_minor
      rw [if_neg (by simp), if_neg hval]
      simp only [Bool.not_true, Bool.false_eq_true, if_false, hex]
    refine ⟨hform, ?_, ?_⟩
    · rw [hform]
      exact List.length_map store _
    · rw [hform]
      refine List.mem_map.mpr ⟨ex, get_active_minor_report_mem store uid ex hex, ?_⟩
      rw [if_pos rfl]
  · intro hinv uid'
    unfold flag_minor
    repeat' split
    any_goals exact hinv uid'
    · next ex2 heq =>
        show pendingCountFor (store.map fun r =>
            if r.id = ex2.id then
              { r with
                suspected_age := suspected_age
                evidence := evidence
                reporter_id := reporter
                updated_at := now }
            else r) uid' ≤ 1
        rw [pendingCountFor_map]
        · exact hinv uid'
        · intro r
          by_cases h : r.id = ex2.id
          · rw [if_pos h]
            exact ⟨rfl, rfl⟩
          · rw [if_neg h]
            exact ⟨rfl, rfl⟩
    · next heq =>
        show pendingCountFor (store ++
            [⟨new_id, uid, reporter, suspected_age, evidence, new_msg_id,
              PENDING, none, now, now, none⟩]) uid' ≤ 1
        unfold pendingCountFor
        rw [List.filter_append, List.length_append]
        by_cases huid : uid = uid'
        · subst huid
          have h0 : pendingCountFor store uid = 0 :=
            pendingCountFor_eq_zero store uid heq
          unfold pendingCountFor at h0
          rw [h0]
          simp [PENDING]
        · have hnil : List.filter
              (fun r => r.user_id == uid' && r.status == PENDING)
              ([⟨new_id, uid, reporter, suspected_age, evidence, new_msg_id,
                PENDING, none, now, now, none⟩] : List MinorReport) = [] := by
            simp [huid]
          rw [hnil]
          simpa using hinv uid'

/-- Helper: a one-row store trivially satisfies the one-active-report
invariant. -/
theorem singleton_atMostOnePending (r : MinorReport) :
    atMostOnePendingPerUser [r] := by
  intro uid
  rcases h : (r.user_id == uid && r.status == PENDING) with _ | _ <;>
    simp [pendingCountFor, List.filter_cons, h]

/-- Witness for C4: re-flagging user 20, who already has pending report 2,
rewrites that row (new age, evidence, reporter, `updated_at`) without adding a
second one, and the single-pending invariant still holds. -/
theorem flag_minor_one_pending_per_user_witness :
    flag_minor true 15 true true true false true [samplePendingReport] 20 8
        "updated evidence" 700 300 5 =
      ⟨[{ samplePendingReport with
          suspected_age := 15
          evidence := "updated evidence"
          reporter_id := 8
          updated_at := 700 }], false, true⟩ ∧
    (flag_minor true 15 true true true false true [samplePendingReport] 20 8
        "updated evidence" 700 300 5).reports.length = 1 ∧
    pendingCountFor
      (flag_minor true 15 true true true false true [samplePendingReport] 20 8
        "updated evidence" 700 300 5).reports 20 ≤ 1 := by
  have h := flag_minor_one_pending_per_user true 15 true true true false true
    [samplePendingReport] 20 8 "updated evidence" 700 300 5 samplePendingReport
  have ha := h.1 (by decide) (by decide) (by decide)
  refine ⟨?_, ha.2.1.trans rfl, h.2 (singleton_atMostOnePending _) 20⟩
  rw [ha.1]
  decide

/-- Decision taken by `ScheduledTasks.auto_remove_minor_role`
(`src/cmds/automation/scheduled_tasks.py`) for one stored report:
`Except.ok true` when the minor role is removed from the target,
`Except.ok false` when the report is skipped, `Except.error` when the inline
`years_until_18` raises. The select filters on status; then the expiry
instant `created_at + 365 * years * 86400` seconds is compared with `now`
(timestamps UTC, a naive `created_at` being tagged UTC unchanged); then the
target must still resolve, the role be configured and held. The
`member.remove_roles` call's own failures are caught and logged, so they do
not change what the sweep decided. -/
def auto_remove_minor_role (report : MinorReport) (now : Int)
    (member_present role_exists member_has_role : Bool) : Except String Bool :=
  if !(report.status = APPROVED ∨ report.status = CONSENT_VERIFIED : Bool) then
    Except.ok false
  else
    match years_until_18 report.suspected_age with
    | Except.error e => Except.error e
    | Except.ok years =>
      let expires_at := report.created_at + 365 * years * 86400
      if now < expires_at then Except.ok false
      else if !member_present then Except.ok false
      else if !role_exists then Except.ok false
      else if !member_has_role then Except.ok false
      else Except.ok true

/-- C7: for a report with status `approved` or `consent_verified`, a valid
suspected age, and a target that still resolves and holds the configured
role, the sweep removes the role exactly when `now` is at or after
`created_at + (18 − suspected_age) * 365 days`; before that instant it
removes nothing. -/
theorem auto_remove_minor_role_at_expiry (report : MinorReport) (now : Int)
    (hstatus : report.status = APPROVED ∨ report.status = CONSENT_VERIFIED)
    (hage1 : 1 ≤ report.suspected_age) (hage2 : report.suspected_age ≤ 17) :
    (auto_remove_minor_role report now true true true = Except.ok true ↔
      report.created_at + 365 * (18 - report.suspected_age) * 86400 ≤ now) ∧
    (now < report.created_at + 365 * (18 - report.suspected_age) * 86400 →
      auto_remove_minor_role report now true true true = Except.ok false) := by
  have hyears := years_until_18_ok report.suspected_age hage1 hage2
  have hst : (report.status = APPROVED ∨ report.status = CONSENT_VERIFIED : Bool) =
      true := by
    rcases hstatus with h | h <;> simp [h]
  have hred : auto_remove_minor_role report now true true true =
      if now < report.created_at + 365 * (18 - report.suspected_age) * 86400 then
        Except.ok false
      else Except.ok true := by
    unfold auto_remove_minor_role
    rw [hst, hyears]
    simp
  rw [hred]
  constructor
  · constructor
    · intro h
      by_contra hlt
      rw [if_pos (by omega)] at h
      simp at h
    · intro h
      rw [if_neg (by omega)]
  · intro h
    rw [if_pos h]

/-- A concrete `consent_verified` report: created at instant 0 with suspected
age 15, so the role expires 3 × 365 days = 94608000 seconds later. -/
def sampleSweepReport : MinorReport :=
  ⟨3, 30, 2, 15, "evidence", 300, CONSENT_VERIFIED, some 42, 0, 0, none⟩

/-- Witness for C7: one day before the expiry instant nothing is removed; at
the expiry instant the role is removed. -/
theorem auto_remove_minor_role_at_expiry_witness :
    auto_remove_minor_role sampleSweepReport (94608000 - 86400) true true true =
      Except.ok false ∧
    auto_remove_minor_role sampleSweepReport 94608000 true true true =
      Except.ok true := by
  have h1 := auto_remove_minor_role_at_expiry sampleSweepReport (94608000 - 86400)
    (Or.inr rfl) (by decide) (by decide)
  have h2 := auto_remove_minor_role_at_expiry sampleSweepReport 94608000
    (Or.inr rfl) (by decide) (by decide)
  exact ⟨h1.2 (by decide), h2.1.mpr (by decide)⟩
